import Mathlib

/-!
Verification of the LiteX-M2SDR AD9361 streaming datapath.

This file gives a shallow embedding of the RFIC streaming datapath of the
repository (gateware/ad9361/core.py and gateware/ad9361/cmosphy.py) and
proves properties of it.  Combinatorial Migen statements become Lean
functions; synchronous (clocked) processes become explicit step functions
on a state type, iterated over input traces with `List.foldl`.  Hardware
signals of width `w` are modelled as `Nat` values, reduced `% 2^w` where
the hardware truncates.  Migen registers reset to 0.

Components of the repository that are only imported by the sources at hand
(gateware/ad9361/bitmode.py, prbs.py, agc.py) are modelled from the
specification; their definitions carry a doc comment saying so.
-/

namespace M2SDR

/-- Extraction of the `k`-th 16-bit field of a 64-bit stream word, i.e. the
bit slice `data[16*k : 16*(k+1)]` of Migen. -/
def wordField (w k : Nat) : Nat := w / 2 ^ (16 * k) % 2 ^ 16

/-- A PHY-side sample: the payload of `phy_layout()` in
gateware/ad9361/cmosphy.py lines 27-34, four fields `ia`, `qa`, `ib`, `qb`
of 12 bits each. -/
structure PhySample where
  ia : Nat
  qa : Nat
  ib : Nat
  qb : Nat
deriving DecidableEq

/-- Well-formedness of a `PhySample`: each field fits its 12-bit signal. -/
def PhySample.Wf (s : PhySample) : Prop :=
  s.ia < 2 ^ 12 ∧ s.qa < 2 ^ 12 ∧ s.ib < 2 ^ 12 ∧ s.qb < 2 ^ 12

/-- Modelled from the spec: `_sign_extend` of gateware/ad9361/bitmode.py
(imported by core.py line 20 but not among the sources at hand).  It
replicates the sign bit of a `w`-bit signal up to `len` bits ("each
sign-extended ... replicate sign bit upward").  The input is reduced
`% 2^w` as the hardware signal is `w` bits wide. -/
def signExtend (w len v : Nat) : Nat :=
  if v % 2 ^ w < 2 ^ (w - 1) then v % 2 ^ w else v % 2 ^ w + (2 ^ len - 2 ^ w)

/-- gateware/ad9361/core.py lines 203-209: the 64-bit word driven onto
`rx_cdc.sink.data`, assembled from the sign-extended PHY source fields:
`ia` into bits [0:16], `qa` into [16:32], `ib` into [32:48], `qb` into
[48:64]. -/
def rxCDCWord (s : PhySample) : Nat :=
  signExtend 12 16 s.ia
    + 2 ^ 16 * signExtend 12 16 s.qa
    + 2 ^ 32 * signExtend 12 16 s.ib
    + 2 ^ 48 * signExtend 12 16 s.qb

/-- gateware/ad9361/core.py lines 192-198: the PHY sink fields driven from
`tx_cdc.source.data`; field `k` is connected to the slice
`data[16*k : 16*(k+1)]`, and since each PHY field is a 12-bit signal the
assignment keeps the low 12 bits of the slice. -/
def txPhySink (data : Nat) : PhySample :=
  { ia := wordField data 0 % 2 ^ 12
    qa := wordField data 1 % 2 ^ 12
    ib := wordField data 2 % 2 ^ 12
    qb := wordField data 3 % 2 ^ 12 }

/-- A host-side sample as carried in 64-bit stream words: four 16-bit
fields (12-bit values sign-extended to 16 bits). -/
structure Sample where
  ia : Nat
  qa : Nat
  ib : Nat
  qb : Nat
deriving DecidableEq

/-- Well-formedness of a `Sample`: each field fits 16 bits. -/
def Sample.Wf (s : Sample) : Prop :=
  s.ia < 2 ^ 16 ∧ s.qa < 2 ^ 16 ∧ s.ib < 2 ^ 16 ∧ s.qb < 2 ^ 16

/-- Modelled from the spec: `AD9361TXBitMode` of gateware/ad9361/bitmode.py
(instantiated in core.py lines 176-179 but not among the sources at hand).
In 16-bit mode the pack stage reproduces the four 16-bit sign-extended
fields unchanged in the 64-bit word (spec section 4.4: "given the
16-bit-mode flag, reproduce four 16-bit sign-extended fields unchanged"). -/
def txBitModePack16 (s : Sample) : Nat :=
  s.ia + 2 ^ 16 * s.qa + 2 ^ 32 * s.ib + 2 ^ 48 * s.qb

/-- Modelled from the spec: `AD9361RXBitMode` of gateware/ad9361/bitmode.py
(instantiated in core.py lines 176-179 but not among the sources at hand).
In 16-bit mode the unpack stage passes the four 16-bit fields of the
64-bit word through unchanged (spec section 4.4: "in 16-bit mode, pass
through unchanged"). -/
def rxBitModeUnpack16 (w : Nat) : Sample :=
  { ia := wordField w 0
    qa := wordField w 1
    ib := wordField w 2
    qb := wordField w 3 }

/-- The set of values enabled to drive a PHY sink: the stream handshake
`valid` together with the four data fields.  This is what the combinatorial
logic of core.py lines 192-198 and 239-247 drives onto `phy.sink`. -/
structure PhySinkDrive where
  valid : Bool
  ia : Nat
  qa : Nat
  ib : Nat
  qb : Nat
deriving DecidableEq

/-- gateware/ad9361/core.py, `add_prbs`, lines 239-247 together with the
datapath connection of lines 192-198: the value driven onto `phy.sink`.
`enable` is `prbs_tx.fields.enable`, `g` is the PRBS generator output
`prbs_generator.o`, `dpValid`/`dp` are the valid signal and data fields
coming from `tx_cdc.source`.  The later combinatorial statements of
`add_prbs` override the earlier datapath assignments when `enable` is set:
they force `valid`, `ia` and `ib`; `qa` and `qb` have no overriding
assignment. -/
def prbsTxMux (enable : Bool) (g : Nat) (dpValid : Bool) (dp : PhySample) : PhySinkDrive :=
  if enable then
    { valid := true, ia := g, qa := dp.qa, ib := g, qb := dp.qb }
  else
    { valid := dpValid, ia := dp.ia, qa := dp.qa, ib := dp.ib, qb := dp.qb }

/-- gateware/ad9361/core.py, `add_prbs`, lines 251-262: the
`prbs_rx.fields.synced` status bit.  It is first driven to 1, then for
each per-lane checker an `If(~prbs_checker.synced, ...)` statement drives
it to 0; `lanes` is the list of the checkers' `synced` outputs in
statement order. -/
def prbsRxSynced (lanes : List Bool) : Bool :=
  lanes.foldl (fun acc s => if !s then false else acc) true

/-- gateware/ad9361/core.py, `add_prbs`, lines 252-262: the concrete
instantiation with two checkers, one observing `phy.source.ia` and one
observing `phy.source.ib`; `sa` and `sb` are their `synced` outputs. -/
def prbsRxSyncedAB (sa sb : Bool) : Bool := prbsRxSynced [sa, sb]

/-- Full positive (0x7fff) or full negative (0x8000) scale of a 16-bit
two's-complement lane value (spec section 4.8: "reaches the representable
extreme value (full positive or full negative scale)"). -/
def isFullScale (x : Nat) : Bool := x == 0x7fff || x == 0x8000

/-- The per-cycle inputs of one `AGCSaturationCount` instance: its clock
enable `ce` and the two 16-bit lane values `i` and `q` it observes. -/
structure AgcInput where
  ce : Bool
  i : Nat
  q : Nat
deriving DecidableEq

/-- Modelled from the spec: the saturation condition of
`AGCSaturationCount` (gateware/ad9361/agc.py, imported by core.py line 22
but not among the sources at hand): a sample is counted on an enabled
cycle in which I or Q reaches full scale (spec section 4.8). -/
def agcSaturated (inp : AgcInput) : Bool :=
  inp.ce && (isFullScale inp.i || isFullScale inp.q)

/-- Modelled from the spec: one clock cycle of an `AGCSaturationCount`
counter (gateware/ad9361/agc.py, not among the sources at hand): the
counter increments exactly on enabled cycles whose sample saturates. -/
def agcStep (c : Nat) (inp : AgcInput) : Nat :=
  if agcSaturated inp then c + 1 else c

/-- The value of an AGC saturation counter after running a trace of
per-cycle inputs from reset (counter starts at 0). -/
def agcCount (tr : List AgcInput) : Nat := tr.foldl agcStep 0

/-- One step of the `rx_cdc.source` stream as observed by the AGC
counters: the handshake signals and the 64-bit data word. -/
structure RxCdcSourceStep where
  valid : Bool
  ready : Bool
  data : Nat
deriving DecidableEq

/-- gateware/ad9361/core.py, `add_agc`, lines 266-273: the inputs wired to
the channel-1 counters: `ce = rx_cdc.source.valid & rx_cdc.source.ready`,
`iqs = [data[0:16], data[16:32]]`. -/
def rx1Inputs (st : RxCdcSourceStep) : AgcInput :=
  { ce := st.valid && st.ready, i := wordField st.data 0, q := wordField st.data 1 }

/-- gateware/ad9361/core.py, `add_agc`, lines 274-281: the inputs wired to
the channel-2 counters: `ce = rx_cdc.source.valid & rx_cdc.source.ready`,
`iqs = [data[32:48], data[48:64]]`. -/
def rx2Inputs (st : RxCdcSourceStep) : AgcInput :=
  { ce := st.valid && st.ready, i := wordField st.data 2, q := wordField st.data 3 }

/-- core.py lines 266-269: the `agc_count_rx1_low` counter over a trace of
`rx_cdc.source` steps. -/
def agc_count_rx1_low (tr : List RxCdcSourceStep) : Nat := agcCount (tr.map rx1Inputs)

/-- core.py lines 270-273: the `agc_count_rx1_high` counter over a trace
of `rx_cdc.source` steps; its instantiation passes the same `ce` and
`iqs` expressions as `agc_count_rx1_low`. -/
def agc_count_rx1_high (tr : List RxCdcSourceStep) : Nat := agcCount (tr.map rx1Inputs)

/-- core.py lines 274-277: the `agc_count_rx2_low` counter over a trace of
`rx_cdc.source` steps. -/
def agc_count_rx2_low (tr : List RxCdcSourceStep) : Nat := agcCount (tr.map rx2Inputs)

/-- core.py lines 278-281: the `agc_count_rx2_high` counter over a trace
of `rx_cdc.source` steps; its instantiation passes the same `ce` and
`iqs` expressions as `agc_count_rx2_low`. -/
def agc_count_rx2_high (tr : List RxCdcSourceStep) : Nat := agcCount (tr.map rx2Inputs)

/-- The registers of the CMOS PHY RX deserializer that are updated in the
`rfic` clock domain (gateware/ad9361/cmosphy.py lines 82-141): the framing
history registers, the intermediate data registers and the driven fields
of the source endpoint.  All reset to 0. -/
structure CmosPhyState where
  rx_frame_d : Bool
  rx_frame_rising_d : Bool
  rx_data_ia : Nat
  rx_data_qa : Nat
  rx_data_ib : Nat
  rx_data_qb : Nat
  valid : Bool
  src_ia : Nat
  src_qa : Nat
  src_ib : Nat
  src_qb : Nat
deriving DecidableEq

/-- The per-cycle inputs of the CMOS PHY deserializer: the framing line
and the I/Q data recovered by the IDDR primitives from the receive pins,
the synchronized `mode` and `loopback` control bits, and the downstream
`ready` signal presented on the source endpoint. -/
structure CmosPhyInput where
  rx_frame : Bool
  rx_data_i : Nat
  rx_data_q : Nat
  mode : Bool
  loopback : Bool
  ready : Bool
deriving DecidableEq

/-- Reset state of the CMOS PHY deserializer: every register is 0. -/
def CmosPhyState.init : CmosPhyState :=
  { rx_frame_d := false, rx_frame_rising_d := false
    rx_data_ia := 0, rx_data_qa := 0, rx_data_ib := 0, rx_data_qb := 0
    valid := false, src_ia := 0, src_qa := 0, src_ib := 0, src_qb := 0 }

/-- gateware/ad9361/cmosphy.py lines 98-141: one `rfic`-domain clock cycle
of the RX deserializer.  `rx_frame_d` latches the framing line,
`rx_frame_rising_d` latches the combinatorial rising-edge detector,
`rx_data_ia`/`rx_data_qa` latch the IDDR outputs while `rx_data_ib` and
`rx_data_qb` are driven to 0 every cycle, and the source endpoint
registers take the intermediate data with `valid` driven to 1.  The TX and
loopback block (lines 144-276) is under `if False:` and contributes no
logic, so neither `loopback` nor `ready` is read. -/
def cmosPhyStep (s : CmosPhyState) (inp : CmosPhyInput) : CmosPhyState :=
  { rx_frame_d := inp.rx_frame
    rx_frame_rising_d := inp.rx_frame && !s.rx_frame_d
    rx_data_ia := inp.rx_data_i % 2 ^ 12
    rx_data_qa := inp.rx_data_q % 2 ^ 12
    rx_data_ib := 0
    rx_data_qb := 0
    valid := true
    src_ia := s.rx_data_ia
    src_qa := s.rx_data_qa
    src_ib := s.rx_data_ib
    src_qb := s.rx_data_qb }

/-- The state of the CMOS PHY deserializer after running a trace of
per-cycle inputs from reset. -/
def cmosPhyRun (tr : List CmosPhyInput) : CmosPhyState :=
  tr.foldl cmosPhyStep CmosPhyState.init

/-- The `control` CSR of the CMOS PHY (gateware/ad9361/cmosphy.py lines
46-55): the `mode` and `loopback` configuration bits. -/
structure CmosControl where
  mode : Bool
  loopback : Bool
deriving DecidableEq

/-- gateware/ad9361/cmosphy.py lines 46-55: writing the `control`
CSRStorage.  A CSR write has no rejection path: any value, including
`loopback = 1`, is stored and acknowledged; no "not supported" error
exists anywhere in the module. -/
def cmosSetControl (c : CmosControl) : Except String CmosControl := Except.ok c

/-- gateware/ad9361/cmosphy.py: the `sink` endpoint's `ready` signal.  The
only logic driving it (line 177) is under `if False:`, so it is never
driven and stays at its reset value 0: the transmit path never accepts a
word. -/
def cmosSinkReady : Bool := false

/-- gateware/ad9361/cmosphy.py line 144: the guard of the TX/loopback
block, literally `if False:` — the transmit and dynamic-loopback logic is
compiled out. -/
def cmosTxImplemented : Bool := false

/-- The signals of the AD9361RFIC data flow that decide whether a word is
transferred on a step: the declared `enable_datapath` control (core.py
line 85) and the TX/RX stream handshakes of core.py lines 192-209. -/
structure RficDataflowInput where
  enable_datapath : Bool
  tx_valid : Bool
  phy_tx_ready : Bool
  phy_rx_valid : Bool
  rx_ready : Bool
deriving DecidableEq

/-- Reset value of the `enable_datapath` signal:
`Signal(reset=1)` (core.py line 85). -/
def enable_datapath_reset : Bool := true

/-- gateware/ad9361/core.py lines 192-198: a TX word is transferred to the
PHY sink exactly when `tx_cdc.source.valid` and `phy.sink.ready` both
hold (the connect keeps `valid`/`ready`); no statement in the module reads
`enable_datapath`. -/
def txTransfer (inp : RficDataflowInput) : Bool := inp.tx_valid && inp.phy_tx_ready

/-- gateware/ad9361/core.py lines 203-209: an RX word is transferred into
the CDC exactly when `phy.source.valid` and `rx_cdc.sink.ready` both hold
(the connect keeps `valid`/`ready`); no statement in the module reads
`enable_datapath`. -/
def rxTransfer (inp : RficDataflowInput) : Bool := inp.phy_rx_valid && inp.rx_ready

end M2SDR

namespace M2SDR

/-- Any sign-extension of a 12-bit value to 16 bits fits in 16 bits. -/
theorem signExtend_12_16_lt (v : Nat) : signExtend 12 16 v < 2 ^ 16 := by
  unfold signExtend
  have h : v % 2 ^ 12 < 2 ^ 12 := Nat.mod_lt _ (by norm_num)
  split <;> omega

/-- Base-2^16 digit extraction from a 64-bit word built of four 16-bit
fields. -/
theorem word_digit_extract (a b c d : Nat)
    (ha : a < 2 ^ 16) (hb : b < 2 ^ 16) (hc : c < 2 ^ 16) (hd : d < 2 ^ 16) :
    wordField (a + 2 ^ 16 * b + 2 ^ 32 * c + 2 ^ 48 * d) 0 = a ∧
    wordField (a + 2 ^ 16 * b + 2 ^ 32 * c + 2 ^ 48 * d) 1 = b ∧
    wordField (a + 2 ^ 16 * b + 2 ^ 32 * c + 2 ^ 48 * d) 2 = c ∧
    wordField (a + 2 ^ 16 * b + 2 ^ 32 * c + 2 ^ 48 * d) 3 = d := by
  unfold wordField
  norm_num
  omega

/-- C1: on the RX path the 64-bit word entering the CDC holds the four
fields in LSB-to-MSB order IA, QA, IB, QB, each occupying 16 bits and
equal to the sign-extension of the corresponding 12-bit PHY field; on the
TX path the 64-bit word leaving the CDC is split into the PHY sink fields
`ia`/`qa`/`ib`/`qb` from bits [0:16], [16:32], [32:48], [48:64]
respectively (each truncated to the 12-bit width of the PHY signal). -/
theorem C1_sample_word_layout (s : PhySample) (w : Nat) :
    (wordField (rxCDCWord s) 0 = signExtend 12 16 s.ia ∧
     wordField (rxCDCWord s) 1 = signExtend 12 16 s.qa ∧
     wordField (rxCDCWord s) 2 = signExtend 12 16 s.ib ∧
     wordField (rxCDCWord s) 3 = signExtend 12 16 s.qb) ∧
    ((txPhySink w).ia = wordField w 0 % 2 ^ 12 ∧
     (txPhySink w).qa = wordField w 1 % 2 ^ 12 ∧
     (txPhySink w).ib = wordField w 2 % 2 ^ 12 ∧
     (txPhySink w).qb = wordField w 3 % 2 ^ 12) := by
  refine ⟨?_, rfl, rfl, rfl, rfl⟩
  exact word_digit_extract _ _ _ _ (signExtend_12_16_lt _) (signExtend_12_16_lt _)
    (signExtend_12_16_lt _) (signExtend_12_16_lt _)

/-- C2: packing a well-formed `Sample` with the TX Bit-Mode converter and
unpacking with the RX Bit-Mode converter, both in 16-bit mode, yields the
original `Sample` (round-trip identity). -/
theorem C2_bitmode_roundtrip_16 (s : Sample) (h : s.Wf) :
    rxBitModeUnpack16 (txBitModePack16 s) = s := by
  obtain ⟨ia, qa, ib, qb⟩ := s
  obtain ⟨h1, h2, h3, h4⟩ := h
  obtain ⟨e1, e2, e3, e4⟩ := word_digit_extract ia qa ib qb h1 h2 h3 h4
  unfold rxBitModeUnpack16 txBitModePack16
  rw [e1, e2, e3, e4]

/-- Witness for C2 at a concrete sample. -/
theorem C2_bitmode_roundtrip_16_witness :
    rxBitModeUnpack16 (txBitModePack16 ⟨100, 65336, 7, 4095⟩) = ⟨100, 65336, 7, 4095⟩ :=
  C2_bitmode_roundtrip_16 ⟨100, 65336, 7, 4095⟩ (by constructor <;> norm_num [Sample.Wf])

/-- C3 counterexample: with the PRBS enable flag set and generator output
5, the `qa` field driven onto the PHY sink is the datapath value 2, not
the generator output — the substitution is partial, contradicting the
claim that all four fields are replaced. -/
theorem C3_prbs_partial_cex :
    (prbsTxMux true 5 true ⟨1, 2, 3, 4⟩).qa = 2 ∧
    (prbsTxMux true 5 true ⟨1, 2, 3, 4⟩).qa ≠ 5 ∧
    (prbsTxMux true 5 true ⟨1, 2, 3, 4⟩).qb = 4 ∧
    (prbsTxMux true 5 true ⟨1, 2, 3, 4⟩).qb ≠ 5 := by
  refine ⟨rfl, ?_, rfl, ?_⟩ <;> decide

/-- C3 amended: whenever the PRBS enable flag is set, the generator output
is substituted for the `ia` and `ib` fields of the PHY sink and `valid` is
forced high, while `qa` and `qb` keep the datapath values; whenever the
flag is clear, the PHY sink carries the normal datapath values
unchanged. -/
theorem C3_prbs_mux (g : Nat) (dpValid : Bool) (dp : PhySample) :
    (∀ e, (prbsTxMux e g dpValid dp).qa = dp.qa ∧ (prbsTxMux e g dpValid dp).qb = dp.qb) ∧
    prbsTxMux true g dpValid dp = ⟨true, g, dp.qa, g, dp.qb⟩ ∧
    prbsTxMux false g dpValid dp = ⟨dpValid, dp.ia, dp.qa, dp.ib, dp.qb⟩ := by
  refine ⟨fun e => ?_, rfl, rfl⟩
  cases e <;> exact ⟨rfl, rfl⟩

/-- C4: the reported overall PRBS synchronization status equals the
logical AND of the `synced` outputs of the two per-lane checkers. -/
theorem C4_prbs_synced_and (sa sb : Bool) : prbsRxSyncedAB sa sb = (sa && sb) := by
  cases sa <;> cases sb <;> rfl

/-- Folding the AGC step function counts exactly the saturated enabled
cycles of the trace. -/
theorem agc_foldl_count (tr : List AgcInput) (c : Nat) :
    tr.foldl agcStep c = c + (tr.filter agcSaturated).length := by
  induction tr generalizing c with
  | nil => rfl
  | cons hd tl ih =>
    simp only [List.foldl_cons, List.filter_cons, agcStep]
    by_cases h : agcSaturated hd = true
    · simp [h, ih]
      omega
    · simp only [Bool.not_eq_true] at h
      simp [h, ih]

/-- C5: every AGC saturation counter increments only on steps where the
`rx_cdc.source` valid and ready signals both hold; a step on which they do
not both hold leaves any of the four counters unchanged, and over any
trace each of the four counters equals exactly the number of transferred
steps whose I or Q value in its lane hits full scale. -/
theorem C5_agc_gating (tr : List RxCdcSourceStep) (c : Nat) (st : RxCdcSourceStep)
    (h : ¬(st.valid = true ∧ st.ready = true)) :
    (agcStep c (rx1Inputs st) = c ∧ agcStep c (rx2Inputs st) = c) ∧
    agc_count_rx1_low tr =
      (tr.filter fun s => (s.valid && s.ready) &&
        (isFullScale (wordField s.data 0) || isFullScale (wordField s.data 1))).length ∧
    agc_count_rx1_high tr =
      (tr.filter fun s => (s.valid && s.ready) &&
        (isFullScale (wordField s.data 0) || isFullScale (wordField s.data 1))).length ∧
    agc_count_rx2_low tr =
      (tr.filter fun s => (s.valid && s.ready) &&
        (isFullScale (wordField s.data 2) || isFullScale (wordField s.data 3))).length ∧
    agc_count_rx2_high tr =
      (tr.filter fun s => (s.valid && s.ready) &&
        (isFullScale (wordField s.data 2) || isFullScale (wordField s.data 3))).length := by
  have hce : (st.valid && st.ready) = false := by
    cases hv : st.valid <;> cases hr : st.ready <;> simp_all
  refine ⟨⟨?_, ?_⟩, ?_, ?_, ?_, ?_⟩
  · simp [agcStep, agcSaturated, rx1Inputs, hce]
  · simp [agcStep, agcSaturated, rx2Inputs, hce]
  · unfold agc_count_rx1_low agcCount
    rw [agc_foldl_count, List.filter_map]
    simp only [List.length_map, Nat.zero_add]
    rfl
  · unfold agc_count_rx1_high agcCount
    rw [agc_foldl_count, List.filter_map]
    simp only [List.length_map, Nat.zero_add]
    rfl
  · unfold agc_count_rx2_low agcCount
    rw [agc_foldl_count, List.filter_map]
    simp only [List.length_map, Nat.zero_add]
    rfl
  · unfold agc_count_rx2_high agcCount
    rw [agc_foldl_count, List.filter_map]
    simp only [List.length_map, Nat.zero_add]
    rfl

/-- Witness for C5 at a concrete trace: three steps, of which the first
saturates lane 1, the third saturates lane 1 (Q field) while lane 2 stays
clear, and a stalled step (`ready = false`) that increments none of the
four counters. -/
theorem C5_agc_gating_witness :
    (agcStep 7 (rx1Inputs ⟨true, false, 0x7fff⟩) = 7 ∧
     agcStep 7 (rx2Inputs ⟨true, false, 0x7fff⟩) = 7) ∧
    agc_count_rx1_low [⟨true, true, 0x7fff⟩, ⟨true, false, 0x7fff⟩, ⟨true, true, 0x8000 * 2 ^ 16⟩] =
      (([⟨true, true, 0x7fff⟩, ⟨true, false, 0x7fff⟩, ⟨true, true, 0x8000 * 2 ^ 16⟩] :
        List RxCdcSourceStep).filter fun s => (s.valid && s.ready) &&
          (isFullScale (wordField s.data 0) || isFullScale (wordField s.data 1))).length ∧
    agc_count_rx1_high [⟨true, true, 0x7fff⟩, ⟨true, false, 0x7fff⟩, ⟨true, true, 0x8000 * 2 ^ 16⟩] =
      (([⟨true, true, 0x7fff⟩, ⟨true, false, 0x7fff⟩, ⟨true, true, 0x8000 * 2 ^ 16⟩] :
        List RxCdcSourceStep).filter fun s => (s.valid && s.ready) &&
          (isFullScale (wordField s.data 0) || isFullScale (wordField s.data 1))).length ∧
    agc_count_rx2_low [⟨true, true, 0x7fff⟩, ⟨true, false, 0x7fff⟩, ⟨true, true, 0x8000 * 2 ^ 16⟩] =
      (([⟨true, true, 0x7fff⟩, ⟨true, false, 0x7fff⟩, ⟨true, true, 0x8000 * 2 ^ 16⟩] :
        List RxCdcSourceStep).filter fun s => (s.valid && s.ready) &&
          (isFullScale (wordField s.data 2) || isFullScale (wordField s.data 3))).length ∧
    agc_count_rx2_high [⟨true, true, 0x7fff⟩, ⟨true, false, 0x7fff⟩, ⟨true, true, 0x8000 * 2 ^ 16⟩] =
      (([⟨true, true, 0x7fff⟩, ⟨true, false, 0x7fff⟩, ⟨true, true, 0x8000 * 2 ^ 16⟩] :
        List RxCdcSourceStep).filter fun s => (s.valid && s.ready) &&
          (isFullScale (wordField s.data 2) || isFullScale (wordField s.data 3))).length :=
  C5_agc_gating [⟨true, true, 0x7fff⟩, ⟨true, false, 0x7fff⟩, ⟨true, true, 0x8000 * 2 ^ 16⟩]
    7 ⟨true, false, 0x7fff⟩ (by decide)

/-- The channel-B invariant of the CMOS PHY deserializer: starting from
any state whose B-channel registers are zero, they stay zero under every
step. -/
theorem cmosPhy_channel_b_invariant (tr : List CmosPhyInput) (s : CmosPhyState)
    (h : s.rx_data_ib = 0 ∧ s.rx_data_qb = 0 ∧ s.src_ib = 0 ∧ s.src_qb = 0) :
    (tr.foldl cmosPhyStep s).rx_data_ib = 0 ∧ (tr.foldl cmosPhyStep s).rx_data_qb = 0 ∧
    (tr.foldl cmosPhyStep s).src_ib = 0 ∧ (tr.foldl cmosPhyStep s).src_qb = 0 := by
  induction tr generalizing s with
  | nil => exact h
  | cons hd tl ih =>
    exact ih (cmosPhyStep s hd) ⟨rfl, rfl, h.1, h.2.1⟩

/-- C6: in every state reachable by the CMOS PHY deserializer from reset,
under any trace of framing, pin data, mode and loopback inputs, the
channel-B fields `ib` and `qb` of the source endpoint are zero. -/
theorem C6_cmos_channel_b_zero (tr : List CmosPhyInput) :
    (cmosPhyRun tr).src_ib = 0 ∧ (cmosPhyRun tr).src_qb = 0 := by
  have h := cmosPhy_channel_b_invariant tr CmosPhyState.init ⟨rfl, rfl, rfl, rfl⟩
  exact ⟨h.2.2.1, h.2.2.2⟩

/-- C7: the CMOS PHY deserializer's source `valid` is asserted in every
state reached after at least one `rfic`-domain cycle (any step lands in a
state with `valid = true`), and the step function is independent of the
downstream `ready` signal, so `valid` is never deasserted in response to
back-pressure. -/
theorem C7_cmos_free_running (s : CmosPhyState) (inp : CmosPhyInput) (r : Bool)
    (tr : List CmosPhyInput) :
    (cmosPhyStep s inp).valid = true ∧
    (cmosPhyRun (tr ++ [inp])).valid = true ∧
    cmosPhyStep s inp = cmosPhyStep s { inp with ready := r } := by
  refine ⟨rfl, ?_, rfl⟩
  unfold cmosPhyRun
  rw [List.foldl_append]
  rfl

/-- C8 counterexample: configuring loopback (and 2R2T mode) on the
receive-only CMOS PHY is accepted — the control write returns the stored
value, not a "not supported" error — while the transmit sink never asserts
`ready`: the invocation is silently accepted as a no-op, contradicting the
claimed configuration-time rejection. -/
theorem C8_cmos_no_reject_cex :
    cmosSetControl ⟨false, true⟩ = Except.ok ⟨false, true⟩ ∧
    (∀ e : String, cmosSetControl ⟨false, true⟩ ≠ Except.error e) ∧
    cmosSinkReady = false :=
  ⟨rfl, fun _ h => Except.noConfusion h, rfl⟩

/-- C8 amended: on the receive-only CMOS PHY variant, invocations of the
transmit path or of dynamic loopback are silently accepted as no-ops: any
control write (including `loopback = 1`) succeeds without error, the
deserializer step is independent of the loopback bit, the TX/loopback
logic is compiled out (`if False:`), and the sink never asserts `ready`;
no capability flag or "not supported" error exists. -/
theorem C8_cmos_silent_noop (c : CmosControl) (s : CmosPhyState) (inp : CmosPhyInput)
    (lb : Bool) :
    cmosSetControl c = Except.ok c ∧
    cmosPhyStep s inp = cmosPhyStep s { inp with loopback := lb } ∧
    cmosTxImplemented = false ∧
    cmosSinkReady = false :=
  ⟨rfl, rfl, rfl, rfl⟩

/-- C9 counterexample: with `enable_datapath` deasserted and the
handshakes high, a word is still transferred on both the TX and RX paths —
the datapath is not disabled, contradicting the claimed never-property. -/
theorem C9_enable_datapath_cex :
    txTransfer ⟨false, true, true, true, true⟩ = true ∧
    rxTransfer ⟨false, true, true, true, true⟩ = true :=
  ⟨rfl, rfl⟩

/-- C9 amended: the module declares an `enable_datapath` control with
reset value 1, but it is connected to nothing: TX and RX word transfers
are decided solely by the valid/ready handshakes and are identical for
either value of `enable_datapath`. -/
theorem C9_enable_datapath_unused (inp : RficDataflowInput) (e : Bool) :
    enable_datapath_reset = true ∧
    txTransfer inp = txTransfer { inp with enable_datapath := e } ∧
    rxTransfer inp = rxTransfer { inp with enable_datapath := e } ∧
    txTransfer inp = (inp.tx_valid && inp.phy_tx_ready) ∧
    rxTransfer inp = (inp.phy_rx_valid && inp.rx_ready) :=
  ⟨rfl, rfl, rfl, rfl, rfl⟩

/-- C10: the "low"-tier and "high"-tier AGC saturation counters of each
channel pair are instantiated with identical clock-enable and I/Q inputs,
so after any trace of `rx_cdc.source` steps from reset they hold equal
values. -/
theorem C10_agc_low_high_equal (tr : List RxCdcSourceStep) :
    agc_count_rx1_low tr = agc_count_rx1_high tr ∧
    agc_count_rx2_low tr = agc_count_rx2_high tr :=
  ⟨rfl, rfl⟩

end M2SDR
